import Mathlib

/-!
Verification of the `kafkabp` package (consumer.go, sarama_wrapper.go,
producer code and config code) as a shallow embedding in Lean 4.

External sarama calls (`NewConsumer`/session open, `Partitions`,
`ConsumePartition`, session `Close`, `NewAsyncProducer`) are modelled by
oracle environments: sessions and partition consumers are identified by
natural numbers, and an environment records what each external call would
return.  Everything the package itself does — validation order, the atomic
stores, the close CAS, the consume loop's decision after all workers
finish — is translated directly from the Go source.
-/

set_option maxHeartbeats 1000000

namespace Kafkabp

/-- Errors coming back from the external sarama library (session open
failure, partition query failure, partition-consumer open failure, session
close failure, async-producer open failure).  They carry an opaque code. -/
inductive SaramaErr where
  | openFail (code : Nat)
  | partitionsFail (code : Nat)
  | consumePartitionFail (code : Nat)
  | closeFail (code : Nat)
  | producerOpenFail (code : Nat)
deriving DecidableEq, Repr

/-- The error values of sarama_wrapper.go (`ErrBrokersEmpty`,
`ErrTopicEmpty`, `ErrClientIDEmpty`, `ErrOffsetInvalid`), together with an
embedding of errors surfaced from the sarama library. -/
inductive KErr where
  | brokersEmpty
  | topicEmpty
  | clientIDEmpty
  | offsetInvalid
  | sarama (e : SaramaErr)
deriving DecidableEq, Repr

/-- sarama.OffsetNewest: the offset assigned to the next produced message. -/
def OffsetNewest : Int := -1

/-- sarama.OffsetOldest: the oldest offset available on the broker. -/
def OffsetOldest : Int := -2

/-- The slice of `sarama.Config` the consumer code touches: `ClientID`,
`Consumer.Return.Errors` and `Consumer.Offsets.Initial`. -/
structure SaramaConfig where
  ClientID : String
  ConsumerReturnErrors : Bool
  ConsumerOffsetsInitial : Int
deriving DecidableEq, Repr

/-- The `ConsumerConfig` as used by consumer.go: `Brokers`, `Topic`,
`ClientID`, a numeric `Offset` (compared against the sarama offset
constants), a `*bool` tracing flag (`Option Bool`, `none` = nil pointer)
and an optional `*sarama.Config`. -/
structure ConsumerConfig where
  Brokers : List String
  Topic : String
  ClientID : String
  Offset : Int
  Tracing : Option Bool
  SaramaConfig : Option SaramaConfig
deriving DecidableEq, Repr

/-- Oracle for the external sarama calls a single `Reset` performs:
what `sarama.NewConsumer` returns (a fresh session id, or an error), what
`session.Partitions(topic)` returns for a given session, and what
`session.Close()` returns for a given session. -/
structure Env where
  newSaramaConsumer : Except SaramaErr Nat
  partitionsOf : Nat → Except SaramaErr (List Int)
  closeSession : Nat → Option SaramaErr

/-- The fields of the `consumer` struct of consumer.go.  The three
`atomic.Value` fields `consumer`, `partitions` and `partitionConsumers`
are `consumerV`, `partitionsV`, `partitionConsumersV`; `closed` and
`consumeReturned` are the two int64 flags (modelled as Bool, 0 = false). -/
structure ConsumerState where
  topic : String
  offset : Int
  tracing : Bool
  saramaConfig : SaramaConfig
  consumerV : Option Nat
  partitionsV : List Int
  partitionConsumersV : List Nat
  closed : Bool
  consumeReturned : Bool
deriving DecidableEq, Repr

/-- `consumer.Reset` of consumer.go, with bookkeeping of which broker
sessions are open.  Arguments: the oracle, the set of sessions currently
open (those this consumer is responsible for), and the current value of
the `consumer` atomic (none before the first store).  Mirrors the source:
close the prior session if any (logging, not failing, on error), then
`rebalance`: open a new session; on open failure return that error; query
partitions; on failure return that error — note the source does NOT close
the just-opened session in this case; on success store the new session and
partitions.  Returns the rebalance result (the pair that gets stored) and
the list of sessions open afterwards.  The metrics counter increments have
no observable effect and are omitted. -/
def Reset (env : Env) (openBefore : List Nat) (current : Option Nat) :
    Except SaramaErr (Nat × List Int) × List Nat :=
  let open1 := match current with
    | some c => openBefore.erase c
    | none => openBefore
  match env.newSaramaConsumer with
  | .error e => (.error e, open1)
  | .ok c =>
    match env.partitionsOf c with
    | .error e => (.error e, c :: open1)
    | .ok ps => (.ok (c, ps), c :: open1)

/-- Result of `NewConsumer`: a consumer handle, an error (the Go code
returns a nil handle alongside every error), or a runtime panic. -/
inductive NCResult where
  | ok (st : ConsumerState)
  | err (e : KErr)
  | panicked
deriving DecidableEq, Repr

/-- `NewConsumer` of consumer.go.  `defaultSaramaConfig` stands for
`DefaultSaramaConfig()`, which is defined in a file of this package not
present in the sources, so it is passed as an abstract parameter.  The
steps, in source order: substitute the default sarama config when nil;
override its ClientID from cfg.ClientID when non-empty; reject an empty
effective ClientID, then empty brokers, then empty topic; coerce any
offset other than OffsetNewest to OffsetOldest (no offset validation);
`if cfg.Tracing == nil { *cfg.Tracing = true }` — a nil-pointer store,
i.e. a panic when Tracing is nil; set Consumer.Return.Errors; build the
consumer struct and run the initial `Reset`.  Also returns the list of
broker sessions left open (for resource accounting). -/
def NewConsumer (defaultSaramaConfig : SaramaConfig) (env : Env)
    (cfg : ConsumerConfig) : NCResult × List Nat :=
  let sc0 := cfg.SaramaConfig.getD defaultSaramaConfig
  let sc1 := if cfg.ClientID ≠ "" then { sc0 with ClientID := cfg.ClientID } else sc0
  if sc1.ClientID = "" then (.err .clientIDEmpty, [])
  else if cfg.Brokers = [] then (.err .brokersEmpty, [])
  else if cfg.Topic = "" then (.err .topicEmpty, [])
  else
    let offset := if cfg.Offset ≠ OffsetNewest then OffsetOldest else cfg.Offset
    match cfg.Tracing with
    | none => (.panicked, [])
    | some t =>
      let sc2 := { sc1 with ConsumerReturnErrors := true }
      match Reset env [] none with
      | (.error e, opened) => (.err (.sarama e), opened)
      | (.ok (c, ps), opened) =>
        (.ok { topic := cfg.Topic, offset := offset, tracing := t,
               saramaConfig := sc2, consumerV := some c, partitionsV := ps,
               partitionConsumersV := [], closed := false,
               consumeReturned := false }, opened)

/-- Outcome of one `Close` call: a returned error value (`none` = nil), or
a runtime panic (a nil interface would be closed). -/
inductive CloseOutcome where
  | ret (e : Option SaramaErr)
  | panicked
deriving DecidableEq, Repr

/-- Result of one `Close` call: the outcome, the state afterwards, and
whether this call performed the underlying session close. -/
structure CloseStep where
  outcome : CloseOutcome
  state : ConsumerState
  didSessionClose : Bool
deriving Repr

/-- `consumer.Close` of consumer.go.  The CAS on `closed` makes every call
but the first return nil immediately.  The first call async-closes each
stored partition consumer (a signal to the workers, no direct state
change here), waits for `Consume` to return, and returns the result of
closing the current session (`getConsumer().Close()`; a nil session would
panic).  The CAS is the single atomic step deciding which call does the
work, so concurrent calls are modelled by their serialization order. -/
def Close (env : Env) (s : ConsumerState) : CloseStep :=
  if s.closed then ⟨.ret none, s, false⟩
  else
    let s1 := { s with closed := true }
    match s1.consumerV with
    | none => ⟨.panicked, s1, false⟩
    | some c => ⟨.ret (env.closeSession c), s1, true⟩

/-- `n` successive `Close` calls: the list of their outcomes, the final
state, and how many of them performed the underlying session close. -/
def closeN (env : Env) : Nat → ConsumerState → List CloseOutcome × ConsumerState × Nat
  | 0, s => ([], s, 0)
  | n + 1, s =>
    let st := Close env s
    let rest := closeN env n st.state
    (st.outcome :: rest.1, rest.2.1, (if st.didSessionClose then 1 else 0) + rest.2.2)

/-- One iteration of the `for` loop in `consumer.Consume`, as seen from
the outside: what each `ConsumePartition` call returns for each assigned
partition, whether the `closed` flag has been set by the time `wg.Wait()`
returns (i.e. whether `Close` ran while the workers drained), and what
the `Reset` call at the bottom of the loop would yield (the session and
partition list it would store on success). -/
structure Round where
  openPartition : Int → Except SaramaErr Nat
  closedAtWait : Bool
  resetResult : Except SaramaErr (Nat × List Int)

/-- The partition-consumer opening loop at the top of `Consume`: one
`ConsumePartition(topic, p, offset)` call per assigned partition, in
order; the first failure aborts with that error (the source `return err`s
from inside the loop, before the `partitionConsumers.Store`). -/
def openAll (f : Int → Except SaramaErr Nat) : List Int → Except SaramaErr (List Nat)
  | [] => .ok []
  | p :: ps =>
    match f p with
    | .error e => .error e
    | .ok pc =>
      match openAll f ps with
      | .error e => .error e
      | .ok pcs => .ok (pc :: pcs)

/-- The deferred `atomic.StoreInt64(&kc.consumeReturned, 1)` that runs
whenever `Consume` returns. -/
def markReturned (s : ConsumerState) : ConsumerState :=
  { s with consumeReturned := true }

/-- The state after the workers of one round have been spawned
(`partitionConsumers.Store(partitionConsumers)`) and `wg.Wait()` has
returned: the new partition consumers are stored, and `closed` reflects
whether `Close` was called in the meantime. -/
def afterWait (r : Round) (s : ConsumerState) (pcs : List Nat) : ConsumerState :=
  { s with partitionConsumersV := pcs, closed := s.closed || r.closedAtWait }

/-- The two stores a successful in-loop `Reset` performs:
`kc.consumer.Store(c)` and `kc.partitions.Store(partitions)`. -/
def applyReset (c : Nat) (ps : List Int) (s : ConsumerState) : ConsumerState :=
  { s with consumerV := some c, partitionsV := ps }

/-- How `Consume` ends: `retNil` (clean shutdown), `retErr` (a
`ConsumePartition` or `Reset` error), or `running` — the supplied script
of rounds ran out with the loop still going, i.e. `Consume` has not
returned within the observed window. -/
inductive ConsumeResult where
  | retNil
  | retErr (e : SaramaErr)
  | running
deriving DecidableEq, Repr

/-- `consumer.Consume` of consumer.go, run against a finite script of
rounds.  Each iteration: read the current session and assignment, open a
partition consumer per partition (any failure returns that error), store
the handles, spawn the message/error drain workers and wait for them all
to finish; then, if the closed flag is set, return nil; otherwise run
`Reset` and either return its error or loop with the newly stored session
and assignment.  The deferred `consumeReturned` store fires on every
return path. -/
def Consume (script : List Round) (s : ConsumerState) : ConsumeResult × ConsumerState :=
  match script with
  | [] => (.running, s)
  | r :: rest =>
    match openAll r.openPartition s.partitionsV with
    | .error e => (.retErr e, markReturned s)
    | .ok pcs =>
      let s2 := afterWait r s pcs
      if s2.closed then (.retNil, markReturned s2)
      else
        match r.resetResult with
        | .error e => (.retErr e, markReturned s2)
        | .ok (c, ps) => Consume rest (applyReset c ps s2)

/-- `consumer.IsHealthy` of consumer.go: `consumeReturned == 0`. -/
def IsHealthy (s : ConsumerState) : Bool := !s.consumeReturned

/-- A script of rounds on which the consume loop keeps going from state
`s`: the state is not closed, every round's partition consumers open,
`Close` does not intervene, and every `Reset` succeeds; the recursive
call threads the same state update the loop performs. -/
def allGood (s : ConsumerState) : List Round → Bool
  | [] => true
  | r :: rest =>
    !s.closed &&
    match openAll r.openPartition s.partitionsV, r.resetResult with
    | .ok pcs, .ok (c, ps) =>
      !r.closedAtWait && allGood (applyReset c ps (afterWait r s pcs)) rest
    | _, _ => false

/-- A `log.Wrapper` value: the caller-supplied logger (tagged with an id
so distinct loggers are distinguishable), the
`log.ErrorWithSentryWrapper()` logger, or the nil wrapper. -/
inductive LoggerV where
  | user (id : Nat)
  | errorWithSentryWrapper
  | nilLogger
deriving DecidableEq, Repr

/-- `ProducerConfig` of config.go: the broker list and the optional
logger (documented there as: when non-nil, it will be used to log
errors). -/
structure ProducerConfig where
  Brokers : List String
  Logger : LoggerV
deriving DecidableEq, Repr

/-- The slice of `sarama.Config` the producer code sets:
`Producer.RequiredAcks`, `Producer.Compression`,
`Producer.Flush.Frequency` (in milliseconds). -/
structure ProducerSaramaConfig where
  RequiredAcks : Int
  Compression : Nat
  FlushFrequencyMs : Nat
deriving DecidableEq, Repr

/-- sarama.WaitForLocal. -/
def WaitForLocal : Int := 1

/-- sarama.CompressionNone. -/
def CompressionNone : Nat := 0

/-- `ProducerConfig.NewSaramaConfig` of config.go: starts from
`sarama.NewConfig()` (the abstract `base`), sets RequiredAcks to
WaitForLocal, no compression, and a 100ms flush frequency; performs no
validation and never fails. -/
def ProducerConfig.NewSaramaConfig (_cfg : ProducerConfig)
    (base : ProducerSaramaConfig) : Except KErr ProducerSaramaConfig :=
  .ok { base with RequiredAcks := WaitForLocal, Compression := CompressionNone,
                  FlushFrequencyMs := 100 }

/-- `ProducerMessage` of the producer file: topic, payload bytes, optional
partitioning key (empty = absent), optional timestamp. -/
structure ProducerMessage where
  Topic : String
  Data : List Nat
  Key : List Nat
  Timestamp : Nat
deriving DecidableEq, Repr

/-- The `sarama.ProducerMessage` built by `Publish`. -/
structure SaramaProducerMessage where
  Topic : String
  Value : List Nat
  Key : Option (List Nat)
  Timestamp : Nat
deriving DecidableEq, Repr

/-- The `TopicAsyncProducer` struct plus the observables of its external
effects: `drainLogger` is the logger captured by the background
error-drain goroutine, `input` the messages delivered to
`Producer.Input()`, and `logs` the warnings logged by `Publish`. -/
structure TopicAsyncProducer where
  producerId : Nat
  cfg : ProducerConfig
  sc : ProducerSaramaConfig
  drainLogger : LoggerV
  closed : Bool
  input : List SaramaProducerMessage
  logs : List String
deriving DecidableEq, Repr

/-- `InitTopicAsyncProducer` of the producer file.  `base` stands for
`sarama.NewConfig()` and `newAsyncProducer` for what
`sarama.NewAsyncProducer(brokers, sc)` returns.  Steps, in source order:
reject an empty broker list with ErrBrokersEmpty (nil handle); build the
sarama config; open the async producer; overwrite `cfg.Logger` with
`log.ErrorWithSentryWrapper()` — unconditionally, before the error-drain
goroutine captures `cfg.Logger`; return the handle. -/
def InitTopicAsyncProducer (base : ProducerSaramaConfig)
    (newAsyncProducer : Except SaramaErr Nat) (cfg : ProducerConfig) :
    Except KErr TopicAsyncProducer :=
  if cfg.Brokers = [] then .error .brokersEmpty
  else
    match cfg.NewSaramaConfig base with
    | .error e => .error e
    | .ok sc =>
      match newAsyncProducer with
      | .error e => .error (.sarama e)
      | .ok pid =>
        let cfg1 := { cfg with Logger := .errorWithSentryWrapper }
        .ok { producerId := pid, cfg := cfg1, sc := sc,
              drainLogger := cfg1.Logger, closed := false, input := [], logs := [] }

/-- The warning `Publish` logs when called after `Close`. -/
def publishWarning : String :=
  "kafkabp.TopicAsyncProducer: Publish called after Close is called"

/-- `TopicAsyncProducer.Publish` of the producer file: when the closed
flag is set, log the warning and return without touching the input
channel; otherwise build the sarama message (key only when non-empty) and
send it to `Producer.Input()`. -/
def TopicAsyncProducer.Publish (tp : TopicAsyncProducer)
    (msg : ProducerMessage) : TopicAsyncProducer :=
  if tp.closed then { tp with logs := tp.logs ++ [publishWarning] }
  else
    let message : SaramaProducerMessage :=
      { Topic := msg.Topic, Value := msg.Data,
        Key := if msg.Key.length > 0 then some msg.Key else none,
        Timestamp := msg.Timestamp }
    { tp with input := tp.input ++ [message] }

/-- `TopicAsyncProducer.Close` of the producer file: set the closed flag
(a plain store, not a CAS), then close the underlying producer;
`closeProducer` models what `Producer.Close()` returns. -/
def TopicAsyncProducer.Close (closeProducer : Nat → Option SaramaErr)
    (tp : TopicAsyncProducer) : Option SaramaErr × TopicAsyncProducer :=
  (closeProducer tp.producerId, { tp with closed := true })

/-- What a concurrent reader of the consumer's atomics can see at one
instant: the `consumer` and `partitions` values (reads of two separate
`atomic.Value`s). -/
structure Snapshot where
  consumerV : Option Nat
  partitionsV : List Int
deriving DecidableEq, Repr

/-- The sequence of atomic stores the `rebalance` closure inside `Reset`
performs on success: first `kc.consumer.Store(c)`, then
`kc.partitions.Store(partitions)` — two separate atomic writes. -/
def resetStores (c : Nat) (ps : List Int) : List (Snapshot → Snapshot) :=
  [fun s => { s with consumerV := some c }, fun s => { s with partitionsV := ps }]

/-- The snapshot a reader takes after the first `i` of the writes have
executed. -/
def observe (writes : List (Snapshot → Snapshot)) (i : Nat) (s : Snapshot) : Snapshot :=
  (writes.take i).foldl (fun a f => f a) s

namespace ConfigFile

/-- `ConsumerConfig` of config.go (the YAML-facing version): brokers,
topic, clientID and a string offset. -/
structure ConsumerConfig where
  Brokers : List String
  Topic : String
  ClientID : String
  Offset : String
deriving DecidableEq, Repr

/-- `ConsumerConfig.NewSaramaConfig` of config.go.  Starts from
`sarama.NewConfig()` (the abstract `base`), sets Consumer.Return.Errors,
then validates: empty brokers, empty topic, empty clientID each fail with
the corresponding error; the offset switch maps `""` (fallthrough) and
`"oldest"` to OffsetOldest, `"newest"` to OffsetNewest, and anything else
to ErrOffsetInvalid. -/
def ConsumerConfig.NewSaramaConfig (cfg : ConsumerConfig) (base : SaramaConfig) :
    Except KErr SaramaConfig :=
  let c := { base with ConsumerReturnErrors := true }
  if cfg.Brokers = [] then .error .brokersEmpty
  else if cfg.Topic = "" then .error .topicEmpty
  else if cfg.ClientID = "" then .error .clientIDEmpty
  else if cfg.Offset = "" ∨ cfg.Offset = "oldest" then
    .ok { c with ConsumerOffsetsInitial := OffsetOldest }
  else if cfg.Offset = "newest" then
    .ok { c with ConsumerOffsetsInitial := OffsetNewest }
  else .error .offsetInvalid

end ConfigFile

/-- C4 counterexample.  Rebalancing from (session 1, assignment [0]) to
(session 2, assignment [0, 1]): a reader between the two stores of
`Reset` observes (session 2, assignment [0]) — the new session paired
with the old assignment, which is neither the old snapshot nor the new
one.  This refutes the claim that the (session, assignment, handles)
state is replaced atomically as one unit. -/
theorem reset_store_torn_read_cex :
    observe (resetStores 2 [0, 1]) 1 ⟨some 1, [0]⟩ = ⟨some 2, [0]⟩ ∧
    (⟨some 2, [0]⟩ : Snapshot) ≠ ⟨some 1, [0]⟩ ∧
    (⟨some 2, [0]⟩ : Snapshot) ≠ ⟨some 2, [0, 1]⟩ := by
  refine ⟨rfl, by decide, by decide⟩

/-- C4 (amended).  The session and assignment live in separate
`atomic.Value`s written one after the other, so a concurrent reader can
observe a mixed pair; what does hold: each individual field is replaced
atomically (at every instant a reader sees either its old or its new
value), readers before the stores see the old pair, and readers after
both stores see the new consistent pair. -/
theorem reset_store_per_field_atomic (c : Nat) (ps : List Int) (s : Snapshot) (i : Nat) :
    ((observe (resetStores c ps) i s).consumerV = s.consumerV ∨
      (observe (resetStores c ps) i s).consumerV = some c) ∧
    ((observe (resetStores c ps) i s).partitionsV = s.partitionsV ∨
      (observe (resetStores c ps) i s).partitionsV = ps) ∧
    observe (resetStores c ps) 0 s = s ∧
    observe (resetStores c ps) 2 s = ⟨some c, ps⟩ := by
  match i with
  | 0 => exact ⟨Or.inl rfl, Or.inl rfl, rfl, rfl⟩
  | 1 => exact ⟨Or.inr rfl, Or.inl rfl, rfl, rfl⟩
  | n + 2 =>
    refine ⟨Or.inr ?_, Or.inr ?_, rfl, rfl⟩ <;>
      simp [observe, resetStores, List.take_succ_cons]

/-- C7.  `NewConsumer` on a fully valid configuration whose `Tracing`
pointer is nil panics: the source runs `*cfg.Tracing = true` without
allocating the pointer, so construction neither succeeds nor defaults
tracing to true. -/
theorem new_consumer_tracing_nil_panics :
    NewConsumer ⟨"sarama", false, 0⟩
      ⟨.ok 1, fun _ => .ok [0], fun _ => none⟩
      { Brokers := ["b1:9092"], Topic := "t", ClientID := "c1", Offset := 0,
        Tracing := none, SaramaConfig := some ⟨"c1", false, 0⟩ } =
      (.panicked, []) := by
  rfl

/-- C10.  `InitTopicAsyncProducer` on a config that supplies the caller
logger `user 7` unconditionally overwrites `cfg.Logger` with
`log.ErrorWithSentryWrapper()` before the error-drain goroutine captures
it, so the drain loop logs through the wrapper, not the supplied
logger — contradicting the `ProducerConfig.Logger` doc (non-nil loggers
will be used to log errors). -/
theorem init_producer_ignores_supplied_logger :
    InitTopicAsyncProducer ⟨0, 0, 0⟩ (.ok 1) { Brokers := ["b1:9092"], Logger := .user 7 } =
      .ok { producerId := 1, cfg := ⟨["b1:9092"], .errorWithSentryWrapper⟩,
            sc := ⟨WaitForLocal, CompressionNone, 100⟩,
            drainLogger := .errorWithSentryWrapper, closed := false,
            input := [], logs := [] } ∧
    LoggerV.user 7 ≠ .errorWithSentryWrapper := by
  refine ⟨rfl, by decide⟩

/-- C2 counterexample.  When the underlying session close fails, two
successive `Close` calls return different outcomes: the first returns the
session-close error, the second returns nil — refuting "all N calls
return the same outcome". -/
theorem close_same_outcome_cex :
    (closeN ⟨.ok 1, fun _ => .ok [0], fun _ => some (.closeFail 3)⟩ 2
      { topic := "t", offset := OffsetOldest, tracing := true,
        saramaConfig := ⟨"c1", true, OffsetOldest⟩, consumerV := some 1,
        partitionsV := [0], partitionConsumersV := [10], closed := false,
        consumeReturned := false }).1 =
      [.ret (some (.closeFail 3)), .ret none] ∧
    CloseOutcome.ret (some (.closeFail 3)) ≠ .ret none := by
  refine ⟨rfl, by decide⟩

/-- C5 counterexample.  A configuration that passes validation, an
environment where the session opens (as session 1) but the partition
query fails: `NewConsumer` fails, yet session 1 is left open — the
`rebalance` closure returns the `Partitions` error without closing the
session it just opened. -/
theorem construction_leaks_session_cex :
    NewConsumer ⟨"sarama", false, 0⟩
      ⟨.ok 1, fun _ => .error (.partitionsFail 0), fun _ => none⟩
      { Brokers := ["b1:9092"], Topic := "t", ClientID := "c1", Offset := 0,
        Tracing := some true, SaramaConfig := some ⟨"c1", false, 0⟩ } =
      (.err (.sarama (.partitionsFail 0)), [1]) ∧
    ([1] : List Nat) ≠ [] := by
  refine ⟨rfl, by decide⟩

/-- C6 counterexample.  `NewConsumer` with offset 7 — a value that is
neither OffsetOldest nor OffsetNewest, i.e. outside every valid offset
choice — succeeds with the offset silently coerced to OffsetOldest
instead of failing with ErrOffsetInvalid. -/
theorem offset_invalid_cex :
    (NewConsumer ⟨"sarama", false, 0⟩ ⟨.ok 1, fun _ => .ok [0], fun _ => none⟩
      { Brokers := ["b1:9092"], Topic := "t", ClientID := "c1", Offset := 7,
        Tracing := some true, SaramaConfig := some ⟨"c1", false, 0⟩ }).1 =
      .ok { topic := "t", offset := OffsetOldest, tracing := true,
            saramaConfig := ⟨"c1", true, 0⟩, consumerV := some 1,
            partitionsV := [0], partitionConsumersV := [], closed := false,
            consumeReturned := false } ∧
    (7 : Int) ≠ OffsetOldest ∧ (7 : Int) ≠ OffsetNewest := by
  refine ⟨rfl, by decide, by decide⟩

/-- C8 counterexample.  `NewConsumer` with an empty broker list AND an
empty effective client ID returns ErrClientIDEmpty, not ErrBrokersEmpty:
the client-ID check precedes the brokers check, so the error is not
BrokersEmpty "regardless of the other configuration fields". -/
theorem brokers_empty_cex :
    (NewConsumer ⟨"sarama", false, 0⟩ ⟨.ok 1, fun _ => .ok [0], fun _ => none⟩
      { Brokers := [], Topic := "t", ClientID := "", Offset := 0,
        Tracing := some true, SaramaConfig := some ⟨"", false, 0⟩ }).1 =
      .err .clientIDEmpty ∧
    KErr.clientIDEmpty ≠ .brokersEmpty := by
  refine ⟨rfl, by decide⟩

/-- Helper: on a state whose closed flag is already set, every `Close`
call returns nil immediately, changes nothing, and never touches the
underlying session. -/
theorem closeN_closed (env : Env) (n : Nat) (s : ConsumerState) (h : s.closed = true) :
    closeN env n s = (List.replicate n (.ret none), s, 0) := by
  induction n generalizing s with
  | zero => simp [closeN]
  | succ n ih => simp [closeN, Close, h, ih s h, List.replicate_succ]

/-- C2 (amended).  Calling `Close` N ≥ 1 times on a live consumer
performs the underlying session close exactly once and no call panics;
the first call returns the session-close result and every later call
returns nil — so all N calls return the same outcome exactly when the
session close succeeds, but not when it fails. -/
theorem close_idempotent_amended (env : Env) (s : ConsumerState) (c : Nat) (n : Nat)
    (hc : s.consumerV = some c) (ho : s.closed = false) :
    (closeN env (n + 1) s).1 =
      .ret (env.closeSession c) :: List.replicate n (.ret none) ∧
    (closeN env (n + 1) s).2.2 = 1 ∧
    CloseOutcome.panicked ∉ (closeN env (n + 1) s).1 := by
  have h1 : Close env s = ⟨.ret (env.closeSession c), { s with closed := true }, true⟩ := by
    simp [Close, ho, hc]
  have h2 := closeN_closed env n { s with closed := true } rfl
  refine ⟨?_, ?_, ?_⟩ <;>
    simp [closeN, h1, h2, List.mem_replicate]

/-- Witness for C2: three `Close` calls on a live consumer whose session
close succeeds — session closed once, outcomes [nil, nil, nil], no
panic. -/
theorem close_idempotent_amended_witness :
    (closeN ⟨.ok 1, fun _ => .ok [0], fun _ => none⟩ 3
      { topic := "t", offset := OffsetOldest, tracing := true,
        saramaConfig := ⟨"c1", true, OffsetOldest⟩, consumerV := some 1,
        partitionsV := [0], partitionConsumersV := [10], closed := false,
        consumeReturned := false }).1 =
      .ret none :: List.replicate 2 (.ret none) ∧
    (closeN ⟨.ok 1, fun _ => .ok [0], fun _ => none⟩ 3
      { topic := "t", offset := OffsetOldest, tracing := true,
        saramaConfig := ⟨"c1", true, OffsetOldest⟩, consumerV := some 1,
        partitionsV := [0], partitionConsumersV := [10], closed := false,
        consumeReturned := false }).2.2 = 1 ∧
    CloseOutcome.panicked ∉
      (closeN ⟨.ok 1, fun _ => .ok [0], fun _ => none⟩ 3
        { topic := "t", offset := OffsetOldest, tracing := true,
          saramaConfig := ⟨"c1", true, OffsetOldest⟩, consumerV := some 1,
          partitionsV := [0], partitionConsumersV := [10], closed := false,
          consumeReturned := false }).1 :=
  close_idempotent_amended _ _ 1 2 rfl rfl

/-- C9.  After `Close` the closed flag is set, and `Publish` on a closed
producer only appends the warning to the log: the input stream, the
closed flag and every other field are unchanged — no message is
delivered, and the early return means no send on (and hence no panic or
block from) the closed input channel. -/
theorem publish_after_close_noop (closeProducer : Nat → Option SaramaErr)
    (tp : TopicAsyncProducer) (msg : ProducerMessage) :
    (TopicAsyncProducer.Close closeProducer tp).2.closed = true ∧
    (TopicAsyncProducer.Close closeProducer tp).2.Publish msg =
      { (TopicAsyncProducer.Close closeProducer tp).2 with
          logs := tp.logs ++ [publishWarning] } ∧
    (tp.closed = true →
      tp.Publish msg = { tp with logs := tp.logs ++ [publishWarning] }) := by
  refine ⟨rfl, rfl, fun h => ?_⟩
  simp [TopicAsyncProducer.Publish, h]

/-- Witness for C9: a concrete closed producer; publishing is a log-only
no-op. -/
theorem publish_after_close_noop_witness :
    ({ producerId := 1, cfg := ⟨["b1:9092"], .errorWithSentryWrapper⟩,
       sc := ⟨1, 0, 100⟩, drainLogger := .errorWithSentryWrapper,
       closed := true, input := [], logs := [] } : TopicAsyncProducer).Publish
        { Topic := "t", Data := [1, 2, 3], Key := [], Timestamp := 0 } =
      { producerId := 1, cfg := ⟨["b1:9092"], .errorWithSentryWrapper⟩,
        sc := ⟨1, 0, 100⟩, drainLogger := .errorWithSentryWrapper,
        closed := true, input := [], logs := [publishWarning] } :=
  (publish_after_close_noop (fun _ => none)
    { producerId := 1, cfg := ⟨["b1:9092"], .errorWithSentryWrapper⟩,
      sc := ⟨1, 0, 100⟩, drainLogger := .errorWithSentryWrapper,
      closed := true, input := [], logs := [] }
    { Topic := "t", Data := [1, 2, 3], Key := [], Timestamp := 0 }).2.2 rfl

/-- C1.  After all partition workers of the current assignment finish
(the workers having been opened successfully): if the closed flag is set,
`Consume` returns nil; otherwise, if the rebalance (`Reset`) fails,
`Consume` returns exactly that error; otherwise the loop continues with
the newly stored session and assignment.  And on a script where nothing
closes, every stream opens and every rebalance succeeds, the loop keeps
running (repeats indefinitely within any observed window). -/
theorem consume_rebalance_spec :
    (∀ (r : Round) (rest : List Round) (s : ConsumerState) (pcs : List Nat),
      openAll r.openPartition s.partitionsV = .ok pcs →
      (((s.closed || r.closedAtWait) = true →
         Consume (r :: rest) s = (.retNil, markReturned (afterWait r s pcs))) ∧
       (∀ e, (s.closed || r.closedAtWait) = false → r.resetResult = .error e →
         Consume (r :: rest) s = (.retErr e, markReturned (afterWait r s pcs))) ∧
       (∀ c ps, (s.closed || r.closedAtWait) = false → r.resetResult = .ok (c, ps) →
         Consume (r :: rest) s = Consume rest (applyReset c ps (afterWait r s pcs))))) ∧
    (∀ (script : List Round) (s : ConsumerState), allGood s script = true →
      (Consume script s).1 = .running) := by
  constructor
  · intro r rest s pcs hopen
    have hcl : (afterWait r s pcs).closed = (s.closed || r.closedAtWait) := rfl
    refine ⟨fun h => ?_, fun e h hres => ?_, fun c ps h hres => ?_⟩
    · simp [Consume, hopen, hcl, h]
    · simp [Consume, hopen, hcl, h, hres]
    · simp [Consume, hopen, hcl, h, hres]
  · intro script
    induction script with
    | nil => intro s _; rfl
    | cons r rest ih =>
      intro s hg
      rw [allGood] at hg
      cases hopen : openAll r.openPartition s.partitionsV with
      | error e => rw [hopen] at hg; simp at hg
      | ok pcs =>
        cases hres : r.resetResult with
        | error e => rw [hopen, hres] at hg; simp at hg
        | ok cp =>
          obtain ⟨c, ps⟩ := cp
          rw [hopen, hres] at hg
          simp only [Bool.and_eq_true, Bool.not_eq_true'] at hg
          obtain ⟨hclosed, hcw, hgood⟩ := hg
          have step := ih (applyReset c ps (afterWait r s pcs)) hgood
          simp only [Consume, hopen]
          have hcl : (afterWait r s pcs).closed = false := by
            simp [afterWait, hclosed, hcw]
          rw [if_neg (by simp [hcl]), hres]
          exact step

/-- Witness for C1: a concrete round whose streams open and during whose
wait `Close` runs — the loop returns nil; and a one-round all-good script
on which the loop is still running. -/
theorem consume_rebalance_spec_witness :
    Consume [{ openPartition := fun _ => .ok 5, closedAtWait := true,
               resetResult := .ok (2, [1]) }]
      { topic := "t", offset := OffsetOldest, tracing := true,
        saramaConfig := ⟨"c1", true, OffsetOldest⟩, consumerV := some 1,
        partitionsV := [0], partitionConsumersV := [], closed := false,
        consumeReturned := false } =
      (.retNil, markReturned (afterWait
        { openPartition := fun _ => .ok 5, closedAtWait := true,
          resetResult := .ok (2, [1]) }
        { topic := "t", offset := OffsetOldest, tracing := true,
          saramaConfig := ⟨"c1", true, OffsetOldest⟩, consumerV := some 1,
          partitionsV := [0], partitionConsumersV := [], closed := false,
          consumeReturned := false } [5])) ∧
    (Consume [{ openPartition := fun _ => .ok 5, closedAtWait := false,
                resetResult := .ok (2, [1]) }]
      { topic := "t", offset := OffsetOldest, tracing := true,
        saramaConfig := ⟨"c1", true, OffsetOldest⟩, consumerV := some 1,
        partitionsV := [0], partitionConsumersV := [], closed := false,
        consumeReturned := false }).1 = .running := by
  exact ⟨(consume_rebalance_spec.1 _ [] _ [5] (by rfl)).1 (by rfl),
         consume_rebalance_spec.2 _ _ (by rfl)⟩

/-- Helper: the deferred `consumeReturned` store fires exactly on the
return paths of `Consume` — the flag is true afterwards when the loop
returned, and untouched while it is still running. -/
theorem consume_returned_flag (script : List Round) (s : ConsumerState) :
    ((Consume script s).1 ≠ .running →
      ((Consume script s).2).consumeReturned = true) ∧
    ((Consume script s).1 = .running →
      ((Consume script s).2).consumeReturned = s.consumeReturned) := by
  induction script generalizing s with
  | nil => exact ⟨fun h => absurd rfl h, fun _ => rfl⟩
  | cons r rest ih =>
    cases hopen : openAll r.openPartition s.partitionsV with
    | error e =>
      refine ⟨fun _ => ?_, fun h => ?_⟩
      · simp [Consume, hopen, markReturned]
      · simp [Consume, hopen] at h
    | ok pcs =>
      by_cases hcl : (afterWait r s pcs).closed
      · refine ⟨fun _ => ?_, fun h => ?_⟩
        · simp [Consume, hopen, hcl, markReturned]
        · simp [Consume, hopen, hcl] at h
      · cases hres : r.resetResult with
        | error e =>
          refine ⟨fun _ => ?_, fun h => ?_⟩
          · simp [Consume, hopen, hcl, hres, markReturned]
          · simp [Consume, hopen, hcl, hres] at h
        | ok cp =>
          obtain ⟨c, ps⟩ := cp
          have heq : Consume (r :: rest) s =
              Consume rest (applyReset c ps (afterWait r s pcs)) := by
            simp [Consume, hopen, hcl, hres]
          have ihs := ih (applyReset c ps (afterWait r s pcs))
          rw [heq]
          exact ⟨ihs.1, fun h => ihs.2 h⟩

/-- C3.  The health flag: true immediately after a successful
construction; false after `Consume` returns, whatever the exit path
(clean shutdown, stream-open error or rebalance failure), and the flag
is set at exactly that moment — while the loop still runs it is
untouched; `Close` never touches it; and the transition is one-shot and
monotonic — once unhealthy, running the loop again cannot make it
healthy. -/
theorem health_flag_spec :
    (∀ (d : SaramaConfig) (env : Env) (cfg : ConsumerConfig)
       (st : ConsumerState) (opened : List Nat),
      NewConsumer d env cfg = (.ok st, opened) → IsHealthy st = true) ∧
    (∀ (script : List Round) (s : ConsumerState),
      ((Consume script s).1 ≠ .running → IsHealthy (Consume script s).2 = false) ∧
      ((Consume script s).1 = .running →
        IsHealthy (Consume script s).2 = IsHealthy s)) ∧
    (∀ (env : Env) (s : ConsumerState),
      IsHealthy (Close env s).state = IsHealthy s) ∧
    (∀ (script : List Round) (s : ConsumerState), IsHealthy s = false →
      IsHealthy (Consume script s).2 = false) := by
  refine ⟨?_, ?_, ?_, ?_⟩
  · intro d env cfg st opened h
    unfold NewConsumer at h
    rcases hR : Reset env [] none with ⟨res, op⟩
    rcases hT : cfg.Tracing with _ | t <;>
      simp only [hR, hT] at h <;>
      split_ifs at h <;>
      rcases res with e | ⟨c, ps⟩ <;>
      simp_all [IsHealthy] <;>
      (obtain ⟨h1, h2⟩ := h; subst h1; rfl)
  · intro script s
    have key := consume_returned_flag script s
    refine ⟨fun h => ?_, fun h => ?_⟩
    · simp [IsHealthy, key.1 h]
    · simp [IsHealthy, key.2 h]
  · intro env s
    have hstate : (Close env s).state = if s.closed then s else { s with closed := true } := by
      unfold Close
      rcases hcv : s.consumerV with _ | c <;> split <;> simp [hcv]
    rw [hstate]
    split <;> rfl
  · intro script s h
    have key := consume_returned_flag script s
    by_cases hr : (Consume script s).1 = .running
    · simp only [IsHealthy, key.2 hr]
      exact h
    · simp [IsHealthy, key.1 hr]

/-- Witness for C3: a concrete successful construction is healthy, and a
concrete already-unhealthy state stays unhealthy through another run of
the loop. -/
theorem health_flag_spec_witness :
    IsHealthy
      { topic := "t", offset := OffsetOldest, tracing := true,
        saramaConfig := ⟨"c1", true, 0⟩, consumerV := some 1,
        partitionsV := [0], partitionConsumersV := [], closed := false,
        consumeReturned := false } = true ∧
    IsHealthy (Consume []
      { topic := "t", offset := OffsetOldest, tracing := true,
        saramaConfig := ⟨"c1", true, 0⟩, consumerV := some 1,
        partitionsV := [0], partitionConsumersV := [], closed := false,
        consumeReturned := true }).2 = false := by
  exact ⟨health_flag_spec.1 ⟨"sarama", false, 0⟩
           ⟨.ok 1, fun _ => .ok [0], fun _ => none⟩
           { Brokers := ["b1:9092"], Topic := "t", ClientID := "c1", Offset := 0,
             Tracing := some true, SaramaConfig := some ⟨"c1", false, 0⟩ }
           _ [1] (by rfl),
         health_flag_spec.2.2.2 [] _ (by rfl)⟩

/-- C5 (amended).  Construction failure and resources: when `NewConsumer`
fails a validation check, or the initial rebalance fails at the
session-open step, no broker session is left open; but when the initial
rebalance fails at the partition-query step, the session just opened is
left open — the rebalance closure returns without closing it. -/
theorem construction_failure_resources (d : SaramaConfig) (env : Env)
    (cfg : ConsumerConfig) (c : Nat) (e : SaramaErr) :
    ((NewConsumer d env cfg).1 = .err .brokersEmpty ∨
     (NewConsumer d env cfg).1 = .err .topicEmpty ∨
     (NewConsumer d env cfg).1 = .err .clientIDEmpty →
      (NewConsumer d env cfg).2 = []) ∧
    (env.newSaramaConsumer = .error e → (NewConsumer d env cfg).2 = []) ∧
    (env.newSaramaConsumer = .ok c → env.partitionsOf c = .error e →
      (NewConsumer d env cfg).1 = .err (.sarama e) →
      (NewConsumer d env cfg).2 = [c]) := by
  refine ⟨?_, ?_, ?_⟩
  · intro hdisj
    unfold NewConsumer at hdisj ⊢
    rcases hR : Reset env [] none with ⟨res, op⟩
    rcases hT : cfg.Tracing with _ | t <;>
      simp only [hR, hT] at hdisj ⊢ <;>
      split_ifs at hdisj ⊢ <;>
      rcases res with e' | ⟨c', ps'⟩ <;>
      simp_all
  · intro hE
    have hR : Reset env [] none = (.error e, []) := by simp [Reset, hE]
    unfold NewConsumer
    rcases hT : cfg.Tracing with _ | t <;>
      simp only [hR, hT] <;>
      split_ifs <;> rfl
  · intro hE hP h1
    have hR : Reset env [] none = (.error e, [c]) := by simp [Reset, hE, hP]
    unfold NewConsumer at h1 ⊢
    rcases hT : cfg.Tracing with _ | t <;>
      simp only [hR, hT] at h1 ⊢ <;>
      split_ifs at h1 ⊢ <;>
      simp_all

/-- Witness for C5: a valid configuration, an environment where the
session opens as session 1 but the partition query fails — construction
fails and session 1 is left open. -/
theorem construction_failure_resources_witness :
    (NewConsumer ⟨"sarama", false, 0⟩
      ⟨.ok 1, fun _ => .error (.partitionsFail 9), fun _ => none⟩
      { Brokers := ["b1:9092"], Topic := "t", ClientID := "c1", Offset := 0,
        Tracing := some true, SaramaConfig := some ⟨"c1", false, 0⟩ }).2 = [1] :=
  (construction_failure_resources ⟨"sarama", false, 0⟩
    ⟨.ok 1, fun _ => .error (.partitionsFail 9), fun _ => none⟩
    { Brokers := ["b1:9092"], Topic := "t", ClientID := "c1", Offset := 0,
      Tracing := some true, SaramaConfig := some ⟨"c1", false, 0⟩ }
    1 (.partitionsFail 9)).2.2 rfl rfl rfl

/-- C6 (amended).  Offset validation lives in
`ConsumerConfig.NewSaramaConfig` of config.go: an offset string outside
{"", "oldest", "newest"} fails with ErrOffsetInvalid there, and "" is
treated exactly like "oldest".  `NewConsumer` itself performs no offset
validation: it never returns ErrOffsetInvalid, and every offset other
than OffsetNewest is silently coerced to OffsetOldest. -/
theorem offset_validation (base d : SaramaConfig) (env : Env)
    (cfg : ConsumerConfig) (scfg : ConfigFile.ConsumerConfig)
    (hb : scfg.Brokers ≠ []) (ht : scfg.Topic ≠ "") (hc : scfg.ClientID ≠ "")
    (ho1 : scfg.Offset ≠ "") (ho2 : scfg.Offset ≠ "oldest")
    (ho3 : scfg.Offset ≠ "newest") :
    scfg.NewSaramaConfig base = .error .offsetInvalid ∧
    ConfigFile.ConsumerConfig.NewSaramaConfig { scfg with Offset := "" } base =
      ConfigFile.ConsumerConfig.NewSaramaConfig { scfg with Offset := "oldest" } base ∧
    (NewConsumer d env cfg).1 ≠ .err .offsetInvalid ∧
    (∀ st opened, NewConsumer d env cfg = (.ok st, opened) →
      cfg.Offset ≠ OffsetNewest → st.offset = OffsetOldest) := by
  refine ⟨?_, ?_, ?_, ?_⟩
  · simp [ConfigFile.ConsumerConfig.NewSaramaConfig, hb, ht, hc, ho1, ho2, ho3]
  · simp [ConfigFile.ConsumerConfig.NewSaramaConfig]
  · intro hcontra
    unfold NewConsumer at hcontra
    rcases hR : Reset env [] none with ⟨res, op⟩
    rcases hT : cfg.Tracing with _ | t <;>
      simp only [hR, hT] at hcontra <;>
      split_ifs at hcontra <;>
      rcases res with e' | ⟨c', ps'⟩ <;>
      simp_all
  · intro st opened h hne
    unfold NewConsumer at h
    rcases hR : Reset env [] none with ⟨res, op⟩
    rcases hT : cfg.Tracing with _ | t <;>
      simp only [hR, hT] at h <;>
      split_ifs at h <;>
      rcases res with e' | ⟨c', ps'⟩ <;>
      simp_all <;>
      (obtain ⟨h1, h2⟩ := h; subst h1; rfl)

/-- Witness for C6: the string offset "bogus" is rejected by
`NewSaramaConfig` with ErrOffsetInvalid, while `NewConsumer` on a config
with the out-of-range numeric offset 0 does not return
ErrOffsetInvalid. -/
theorem offset_validation_witness :
    ConfigFile.ConsumerConfig.NewSaramaConfig ⟨["b1:9092"], "t", "c1", "bogus"⟩
      ⟨"sarama", false, 0⟩ = .error .offsetInvalid ∧
    (NewConsumer ⟨"sarama", false, 0⟩ ⟨.ok 1, fun _ => .ok [0], fun _ => none⟩
      { Brokers := ["b1:9092"], Topic := "t", ClientID := "c1", Offset := 0,
        Tracing := some true, SaramaConfig := some ⟨"c1", false, 0⟩ }).1 ≠
      .err .offsetInvalid := by
  refine ⟨?_, ?_⟩
  · exact (offset_validation ⟨"sarama", false, 0⟩ ⟨"sarama", false, 0⟩
      ⟨.ok 1, fun _ => .ok [0], fun _ => none⟩
      { Brokers := ["b1:9092"], Topic := "t", ClientID := "c1", Offset := 0,
        Tracing := some true, SaramaConfig := some ⟨"c1", false, 0⟩ }
      ⟨["b1:9092"], "t", "c1", "bogus"⟩
      (by decide) (by decide) (by decide) (by decide) (by decide) (by decide)).1
  · exact (offset_validation ⟨"sarama", false, 0⟩ ⟨"sarama", false, 0⟩
      ⟨.ok 1, fun _ => .ok [0], fun _ => none⟩
      { Brokers := ["b1:9092"], Topic := "t", ClientID := "c1", Offset := 0,
        Tracing := some true, SaramaConfig := some ⟨"c1", false, 0⟩ }
      ⟨["b1:9092"], "t", "c1", "bogus"⟩
      (by decide) (by decide) (by decide) (by decide) (by decide) (by decide)).2.2.1

/-- C8 (amended).  The producer path (`InitTopicAsyncProducer`) always
returns ErrBrokersEmpty (and no handle) on an empty broker list.  The
consumer path returns ErrBrokersEmpty on an empty broker list provided
the effective client ID (cfg.ClientID, falling back to the sarama
config's ClientID) is non-empty — the client-ID check precedes the
brokers check, so an empty effective client ID yields ErrClientIDEmpty
instead. -/
theorem brokers_empty_validation (base : ProducerSaramaConfig)
    (nap : Except SaramaErr Nat) (pcfg : ProducerConfig) (d : SaramaConfig)
    (env : Env) (cfg : ConsumerConfig)
    (hp : pcfg.Brokers = []) (hb : cfg.Brokers = [])
    (hid : (if cfg.ClientID = "" then (cfg.SaramaConfig.getD d).ClientID
            else cfg.ClientID) ≠ "") :
    InitTopicAsyncProducer base nap pcfg = .error .brokersEmpty ∧
    (NewConsumer d env cfg).1 = .err .brokersEmpty := by
  constructor
  · simp [InitTopicAsyncProducer, hp]
  · unfold NewConsumer
    by_cases hcid : cfg.ClientID = "" <;> simp_all

/-- Witness for C8: a producer config and a consumer config, both with
empty broker lists, the consumer one with a non-empty client ID — both
constructions return ErrBrokersEmpty. -/
theorem brokers_empty_validation_witness :
    InitTopicAsyncProducer ⟨0, 0, 0⟩ (.ok 1) ⟨[], .nilLogger⟩ =
      .error .brokersEmpty ∧
    (NewConsumer ⟨"sarama", false, 0⟩ ⟨.ok 1, fun _ => .ok [0], fun _ => none⟩
      { Brokers := [], Topic := "t", ClientID := "c1", Offset := 0,
        Tracing := some true, SaramaConfig := some ⟨"x", false, 0⟩ }).1 =
      .err .brokersEmpty :=
  brokers_empty_validation ⟨0, 0, 0⟩ (.ok 1) ⟨[], .nilLogger⟩
    ⟨"sarama", false, 0⟩ ⟨.ok 1, fun _ => .ok [0], fun _ => none⟩
    { Brokers := [], Topic := "t", ClientID := "c1", Offset := 0,
      Tracing := some true, SaramaConfig := some ⟨"x", false, 0⟩ }
    rfl rfl (by decide)

end Kafkabp
